import Mathlib

/-!
Shallow embedding of the elevator dataset generator
(scr/generate_dataset.py, class GenerateDataset).

Conventions of the embedding:
* JSON-like configuration data is modelled by the inductive `JVal`
  (integers, floats, strings, lists, string-keyed objects).  Python
  floats are modelled by exact rationals.
* Python exceptions are modelled by `Except`: `ValueError` and
  `KeyError` during loading (`LoadErr`), `TypeError`,
  `ZeroDivisionError` and the empty-sequence `ValueError` during weight
  derivation (`DerivErr`).  Error message strings are abridged.
* Randomness is passed in explicitly: `pick_next_door` consumes a list
  of pre-drawn floors (the successive results of random.choices), the
  generation loop consumes one `StepInput` per iteration.
* `datetime` values are rationals counting minutes from a fixed epoch;
  `strftime` with a seconds-resolution format is modelled by the floor
  of the value converted to seconds (`date_str_sec`), which is exactly
  the information the formatted string adds beyond the date fields.
-/

namespace ElevatorGen

instance {ε α : Type _} [DecidableEq ε] [DecidableEq α] : DecidableEq (Except ε α) :=
  fun x y =>
    match x, y with
    | .error e, .error f =>
      if h : e = f then isTrue (by rw [h]) else isFalse (fun hh => h (by cases hh; rfl))
    | .ok a, .ok b =>
      if h : a = b then isTrue (by rw [h]) else isFalse (fun hh => h (by cases hh; rfl))
    | .error _, .ok _ => isFalse (fun hh => Except.noConfusion hh)
    | .ok _, .error _ => isFalse (fun hh => Except.noConfusion hh)

inductive JVal where
  | jnum (n : Int)
  | jfloat (q : ℚ)
  | jstr (s : String)
  | jlist (xs : List JVal)
  | jdict (xs : List (String × JVal))

def jlookup (xs : List (String × JVal)) (k : String) : Option JVal :=
  match xs with
  | [] => none
  | (k2, v) :: rest => if k2 = k then some v else jlookup rest k

def hasKey (xs : List (String × JVal)) (k : String) : Bool :=
  (jlookup xs k).isSome

inductive LoadErr where
  | valueError (msg : String)
  | keyError (key : String)
deriving DecidableEq

/-- Models `data[k]` on a Python dict: raises `KeyError` when absent. -/
def getKey (xs : List (String × JVal)) (k : String) : Except LoadErr JVal :=
  match jlookup xs k with
  | some v => .ok v
  | none => .error (.keyError k)

def JVal.isInt : JVal → Bool
  | .jnum _ => true
  | _ => false

def JVal.isNum : JVal → Bool
  | .jnum _ => true
  | .jfloat _ => true
  | _ => false

def JVal.isStr : JVal → Bool
  | .jstr _ => true
  | _ => false

def JVal.isDict : JVal → Bool
  | .jdict _ => true
  | _ => false

def JVal.isList : JVal → Bool
  | .jlist _ => true
  | _ => false

def JVal.asInt : JVal → Int
  | .jnum n => n
  | _ => 0

def JVal.asQ : JVal → ℚ
  | .jnum n => (n : ℚ)
  | .jfloat q => q
  | _ => 0

def JVal.asStr : JVal → String
  | .jstr s => s
  | _ => ""

def JVal.asDict : JVal → List (String × JVal)
  | .jdict xs => xs
  | _ => []

def JVal.asList : JVal → List JVal
  | .jlist xs => xs
  | _ => []

/-- Value of `data[k]` once presence has been established. -/
def getV (xs : List (String × JVal)) (k : String) : JVal :=
  (jlookup xs k).getD (.jnum 0)

structure PeakWindow where
  start : Int
  /-- JSON key "end" (a Lean keyword). -/
  stop : Int
deriving DecidableEq

structure Params where
  floor_capacities : List (String × Int)
  floor_types : List (String × String)
  rows_generated : Int
  floor_number : Int
  negative_floor_number : Int
  min_time_interval_seconds : Int
  max_time_interval_seconds : Int
  interval_per_floor_seconds : ℚ
  peak_hours : List PeakWindow
  peak_multiplier : ℚ
  random_minutes_min : Int
  random_minutes_max : Int
deriving DecidableEq

/-- The nine keys checked by the `all(key in data for key in [...])`
structure test (lines 48-62).  Note `negative_floor_number` and
`interval_per_floor_seconds` are absent from this list although the
code accesses them later. -/
def requiredKeys : List String :=
  ["floor_capacities", "floor_types", "rows_generated", "floor_number",
   "min_time_interval_seconds", "max_time_interval_seconds",
   "peak_hours", "peak_multiplier", "random_minutes_range"]

def check_structure (data : List (String × JVal)) : Except LoadErr Unit :=
  if requiredKeys.all (fun k => hasKey data k) then .ok ()
  else .error (.valueError "Invalid JSON structure.")

def check_floor_capacities (data : List (String × JVal)) : Except LoadErr Unit := do
  let v ← getKey data "floor_capacities"
  if ¬ v.isDict then .error (.valueError "Invalid floor_capacities data type.")
  else if v.asDict.all (fun kv => kv.2.isInt && decide (0 < kv.2.asInt)) then .ok ()
  else .error (.valueError "Invalid capacity.")

def check_floor_types (data : List (String × JVal)) : Except LoadErr Unit := do
  let v ← getKey data "floor_types"
  if ¬ v.isDict then .error (.valueError "Invalid floor_types data type.")
  else if v.asDict.all (fun kv => kv.2.isStr) then .ok ()
  else .error (.valueError "Invalid floor type mapping.")

/-- Shared shape of the `rows_generated`, `floor_number` and time
interval checks: value must be an int and strictly positive. -/
def check_int_pos (data : List (String × JVal)) (k : String) (msg : String) :
    Except LoadErr Unit := do
  let v ← getKey data k
  if v.isInt ∧ 0 < v.asInt then .ok ()
  else .error (.valueError msg)

def check_negative_floor_number (data : List (String × JVal)) : Except LoadErr Unit := do
  let v ← getKey data "negative_floor_number"
  if v.isInt ∧ v.asInt ≤ 0 then .ok ()
  else .error (.valueError "Invalid negative_floor_number value.")

def check_interval_per_floor (data : List (String × JVal)) : Except LoadErr Unit := do
  let v ← getKey data "interval_per_floor_seconds"
  if v.isNum ∧ 0 ≤ v.asQ then .ok ()
  else .error (.valueError "Invalid interval_per_floor_seconds value.")

def check_peak_hours (data : List (String × JVal)) : Except LoadErr Unit := do
  let v ← getKey data "peak_hours"
  if ¬ (v.isList ∧ v.asList.all (fun iv => iv.isDict)) then
    .error (.valueError "Invalid peak_hours format.")
  else if v.asList.all (fun iv =>
      (jlookup iv.asDict "start").isSome && (jlookup iv.asDict "end").isSome &&
      (getV iv.asDict "start").isInt && (getV iv.asDict "end").isInt) then .ok ()
  else .error (.valueError "Invalid peak hour interval.")

def check_peak_multiplier (data : List (String × JVal)) : Except LoadErr Unit := do
  let v ← getKey data "peak_multiplier"
  if v.isNum ∧ 0 ≤ v.asQ ∧ v.asQ ≤ 1 then .ok ()
  else .error (.valueError "Invalid peak_multiplier value.")

def check_random_minutes_range (data : List (String × JVal)) : Except LoadErr Unit := do
  let v ← getKey data "random_minutes_range"
  if v.isDict ∧ (jlookup v.asDict "min").isSome ∧ (jlookup v.asDict "max").isSome ∧
      (getV v.asDict "min").isInt ∧ (getV v.asDict "max").isInt then .ok ()
  else .error (.valueError "Invalid random_minutes_range format.")

/-- The validation section of `load_elevator_variables` (lines 47-138),
in source order.  A missing `negative_floor_number` or
`interval_per_floor_seconds` key surfaces here as a `KeyError` from the
bare subscript access, not as one of the `ValueError`s. -/
def load_check (data : List (String × JVal)) : Except LoadErr Unit := do
  check_structure data
  check_floor_capacities data
  check_floor_types data
  check_int_pos data "rows_generated" "Invalid rows_generated value."
  check_int_pos data "floor_number" "Invalid floor_number value."
  check_negative_floor_number data
  check_int_pos data "min_time_interval_seconds" "Invalid min_time_interval_seconds value."
  check_int_pos data "max_time_interval_seconds" "Invalid max_time_interval_seconds value."
  check_interval_per_floor data
  check_peak_hours data
  check_peak_multiplier data
  check_random_minutes_range data

/-- The attribute-assignment section (lines 140-151).  The code re-reads
values whose presence and type the checks just established, so reading
with a default here is observationally identical. -/
def extract_params (data : List (String × JVal)) : Params :=
  { floor_capacities := (getV data "floor_capacities").asDict.map
      (fun kv => (kv.1, kv.2.asInt))
    floor_types := (getV data "floor_types").asDict.map
      (fun kv => (kv.1, kv.2.asStr))
    rows_generated := (getV data "rows_generated").asInt
    floor_number := (getV data "floor_number").asInt
    negative_floor_number := (getV data "negative_floor_number").asInt
    min_time_interval_seconds := (getV data "min_time_interval_seconds").asInt
    max_time_interval_seconds := (getV data "max_time_interval_seconds").asInt
    interval_per_floor_seconds := (getV data "interval_per_floor_seconds").asQ
    peak_hours := (getV data "peak_hours").asList.map
      (fun iv => { start := (getV iv.asDict "start").asInt
                   stop := (getV iv.asDict "end").asInt })
    peak_multiplier := (getV data "peak_multiplier").asQ
    random_minutes_min := (getV (getV data "random_minutes_range").asDict "min").asInt
    random_minutes_max := (getV (getV data "random_minutes_range").asDict "max").asInt }

/-- `GenerateDataset.load_elevator_variables` (lines 41-155): validate
in source order, then expose the parameters. -/
def load_elevator_variables (data : List (String × JVal)) : Except LoadErr Params := do
  load_check data
  pure (extract_params data)

/-- `range(self.negative_floor_number, self.floor_number)` as a list. -/
def floorRange (p : Params) : List Int :=
  (List.range (p.floor_number - p.negative_floor_number).toNat).map
    (fun i => p.negative_floor_number + (i : Int))

/-- `self.floor_types.get(str(floor), "Residential")` (line 161). -/
def floor_type_of (p : Params) (floor : Int) : String :=
  (List.lookup (toString floor) p.floor_types).getD "Residential"

/-- `self.floor_capacities.get(floor_type)` (line 160): a missing
floor-type key yields Python `None`, modelled as `none`. -/
def capacity_of (p : Params) (floor : Int) : Option Int :=
  List.lookup (floor_type_of p floor) p.floor_capacities

/-- Exceptions `floor_weights_mapping` can raise: `TypeError` when a
`None` capacity reaches `min`, arithmetic, or comparison;
`ZeroDivisionError` when `max_capacity == min_capacity`; `ValueError`
from `min` of an empty sequence. -/
inductive DerivErr where
  | typeError
  | zeroDivisionError
  | valueError
deriving DecidableEq

/-- Python `round(x, 3)`.  (CPython rounds the binary double half to
even; on the exact rationals reached here we use half-up rounding.
Every property proved below depends only on the rounding error being
at most 1/2000, which holds for either tie rule.) -/
def round3 (q : ℚ) : ℚ := (round (1000 * q) : ℤ) / 1000

def seqOpts : List (Option Int) → Option (List Int)
  | [] => some []
  | none :: _ => none
  | some x :: rest => (seqOpts rest).map (fun l => x :: l)

/-- The dictionary comprehension of lines 172-177: base weight
`1 / floor_number` plus the capacity spread ratio, per floor. -/
def raw_weights (p : Params) (caps : List Int) (min_capacity max_capacity : Int) : List ℚ :=
  caps.map (fun (c : Int) =>
    1 / (p.floor_number : ℚ)
      + ((c : ℚ) - (min_capacity : ℚ)) / ((max_capacity : ℚ) - (min_capacity : ℚ)))

/-- `GenerateDataset.floor_weights_mapping` (lines 157-186), producing
the weight list in floor order. -/
def floor_weights_mapping (p : Params) : Except DerivErr (List ℚ) :=
  match seqOpts ((floorRange p).map (capacity_of p)) with
  | none => .error .typeError
  | some [] => .error .valueError
  | some (c0 :: rest) =>
    let min_capacity : Int := rest.foldl min c0
    let max_capacity : Int := rest.foldl max c0
    if max_capacity = min_capacity then .error .zeroDivisionError
    else
      let raw := raw_weights p (c0 :: rest) min_capacity max_capacity
      .ok (raw.map (fun w => round3 (w / raw.sum)))

/-- `GenerateDataset.pick_next_door` (lines 197-206): retry the weighted
draw until it differs from the demand floor.  `draws` is the stream of
values produced by the successive `random.choices` calls; `none` means
the stream was exhausted with every draw equal to `demand_floor`, i.e.
the loop is still running after `draws.length` iterations. -/
def pick_next_door (demand_floor : Int) : List Int → Option Int
  | [] => none
  | x :: xs => if x ≠ demand_floor then some x else pick_next_door demand_floor xs

/-- The distance-based lag expression appearing twice in
`calculate_interval_minutes` (lines 226-232 and 236-243), in minutes. -/
def interval_lag (p : Params) (distance : Int) : ℚ :=
  (if distance ≤ 1 then (p.min_time_interval_seconds : ℚ)
   else min (p.max_time_interval_seconds : ℚ) ((distance : ℚ) * p.interval_per_floor_seconds)) / 60

/-- The peak test of lines 246-249. -/
def is_peak_hour (p : Params) (hour : Int) : Bool :=
  p.peak_hours.any (fun iv => decide (iv.start ≤ hour) && decide (hour < iv.stop))

/-- `GenerateDataset.calculate_interval_minutes` (lines 222-261).
`hour` is `self.start_time.hour`; `random_minutes` is the value drawn
by `random.randint(range_min, range_max)`. -/
def calculate_interval_minutes (p : Params) (current_floor demand_floor next_floor : Int)
    (hour : Int) (random_minutes : Int) : ℚ :=
  let current_floor_interval_lag := interval_lag p |current_floor - demand_floor|
  let next_floor_interval_lag := interval_lag p |next_floor - demand_floor|
  let peak_interval_multiplier : ℚ :=
    if is_peak_hour p hour then p.peak_multiplier else 1
  (random_minutes : ℚ) * peak_interval_multiplier
    + current_floor_interval_lag + next_floor_interval_lag

/-- `self.current_floor`, `self.demand_floor`, `self.start_time`:
the mutable simulation cursor.  `start_time` counts minutes from a
fixed midnight epoch. -/
structure Cursor where
  current_floor : Int
  demand_floor : Int
  start_time : ℚ
deriving DecidableEq

/-- `datetime.hour` of a time measured in minutes from a midnight
epoch. -/
def hourOf (t : ℚ) : Int := (⌊t / 60⌋) % 24

/-- The random values one loop iteration of `generate_elevator_states`
consumes: the `random.choices` stream inside `pick_next_door`, the
`random.randint` draw, and the fresh weighted draw for the next demand
floor. -/
structure StepInput where
  next_draws : List Int
  random_minutes : Int
  demand_draw : Int
deriving DecidableEq

/-- One persisted row.  `call_time` is the exact `call_datetime`;
`date_str_sec` is the whole-second value carried by the
`strftime("%Y-%m-%d %H:%M:%S")` string handed to the store (line 280),
which truncates fractional seconds. -/
structure ElevatorState where
  current_floor : Int
  demand_floor : Int
  next_floor : Int
  call_time : ℚ
  date_str_sec : Int
deriving DecidableEq

/-- One iteration of the loop in `generate_elevator_states`
(lines 270-287): pick the next floor, compute the interval, persist the
state, advance the cursor.  `none` means `pick_next_door` never
returned within the supplied draw stream. -/
def gen_step (p : Params) (c : Cursor) (inp : StepInput) :
    Option (ElevatorState × Cursor) :=
  match pick_next_door c.demand_floor inp.next_draws with
  | none => none
  | some nf =>
    let interval_minutes :=
      calculate_interval_minutes p c.current_floor c.demand_floor nf
        (hourOf c.start_time) inp.random_minutes
    let call_datetime := c.start_time + interval_minutes
    some ({ current_floor := c.current_floor
            demand_floor := c.demand_floor
            next_floor := nf
            call_time := call_datetime
            date_str_sec := ⌊call_datetime * 60⌋ },
          { current_floor := nf
            demand_floor := inp.demand_draw
            start_time := call_datetime })

/-- The loop of `generate_elevator_states` (lines 270-287), emitting
the persisted states in order.  The prologue of the method is modelled
by `generate_elevator_states` below. -/
def gen_run (p : Params) : Cursor → List StepInput → Option (List ElevatorState)
  | _, [] => some []
  | c, inp :: rest =>
    match gen_step p c inp with
    | none => none
    | some (s, c2) => (gen_run p c2 rest).map (fun l => s :: l)

/-- `GenerateDataset.generate_elevator_states` (lines 263-287) after
loading: the method first calls `floor_weights_mapping` (line 267),
whose exception aborts the run before any state is generated, then
seeds the cursor (`obtain_table_last_state`, taken here as the input
`c`) and runs the loop.  `load_elevator_variables` (line 266) is
modelled separately since it consumes the raw configuration, not
`Params`. -/
def generate_elevator_states (p : Params) (c : Cursor) (inp : List StepInput) :
    Except DerivErr (Option (List ElevatorState)) :=
  match floor_weights_mapping p with
  | .error e => .error e
  | .ok _ => .ok (gen_run p c inp)

/-- Pairwise floor-chaining of a produced sequence: each state starts on
the floor the previous state moved to. -/
def chain_floor_okb : List ElevatorState → Bool
  | s1 :: s2 :: rest => (s2.current_floor == s1.next_floor) && chain_floor_okb (s2 :: rest)
  | _ => true

/-- Pairwise strict increase of the exact call datetimes. -/
def chain_time_okb : List ElevatorState → Bool
  | s1 :: s2 :: rest => decide (s1.call_time < s2.call_time) && chain_time_okb (s2 :: rest)
  | _ => true

/-- Strengthened floor-chaining, anchored at the cursor feeding the
sequence. -/
def chain_floor_from (cf : Int) : List ElevatorState → Bool
  | [] => true
  | s :: rest => (s.current_floor == cf) && chain_floor_from s.next_floor rest

/-- Strengthened time-chaining, anchored at the cursor time. -/
def chain_time_from (t : ℚ) : List ElevatorState → Bool
  | [] => true
  | s :: rest => decide (t < s.call_time) && chain_time_from s.call_time rest

/-- Modelled from the specification, section 4.5: the lag formula
written exactly as the spec states it, for comparison with the code. -/
def lag_spec (p : Params) (distance : Int) : ℚ :=
  (if distance ≤ 1 then (p.min_time_interval_seconds : ℚ)
   else min (p.max_time_interval_seconds : ℚ) ((distance : ℚ) * p.interval_per_floor_seconds)) / 60

/-- Modelled from the specification, section 4.5: the random-minutes
draw scaled by the peak multiplier when the hour lies in some
`[start, end)` window, else by 1.0. -/
def scaled_random_minutes_spec (p : Params) (hour : Int) (r : Int) : ℚ :=
  if p.peak_hours.any (fun iv => decide (iv.start ≤ hour) && decide (hour < iv.stop))
  then (r : ℚ) * p.peak_multiplier
  else (r : ℚ) * 1

/-- Modelled from the specification, section 4.5: total interval =
scaledRandomMinutes + lag(currentDistance) + lag(nextDistance). -/
def interval_spec (p : Params) (current_floor demand_floor next_floor : Int)
    (hour : Int) (r : Int) : ℚ :=
  scaled_random_minutes_spec p hour r
    + lag_spec p |current_floor - demand_floor|
    + lag_spec p |next_floor - demand_floor|

/-! Concrete configurations used to instantiate or refute the claims.
`mkData` lays out a JSON object in the shape of
`scr/elevator_variables.json`; the `negative_floor_number` and
`interval_per_floor_seconds` keys are optional so that their omission
can be exercised. -/

def mkData (fc ft : List (String × JVal)) (rows fn : Int) (nfn : Option Int)
    (mn mx : Int) (ipf : Option JVal) (ph : List JVal) (pm : JVal) (rmin rmax : Int) :
    List (String × JVal) :=
  [("floor_capacities", JVal.jdict fc),
   ("floor_types", JVal.jdict ft),
   ("rows_generated", JVal.jnum rows),
   ("floor_number", JVal.jnum fn)] ++
  (match nfn with
   | some v => [("negative_floor_number", JVal.jnum v)]
   | none => []) ++
  [("min_time_interval_seconds", JVal.jnum mn),
   ("max_time_interval_seconds", JVal.jnum mx)] ++
  (match ipf with
   | some v => [("interval_per_floor_seconds", v)]
   | none => []) ++
  [("peak_hours", JVal.jlist ph),
   ("peak_multiplier", pm),
   ("random_minutes_range", JVal.jdict [("min", JVal.jnum rmin), ("max", JVal.jnum rmax)])]

/-- A benign configuration: six floors, distinct capacities, strictly
positive per-floor interval. -/
def cfg0 : List (String × JVal) :=
  mkData [("Residential", .jnum 10), ("Office", .jnum 20)] [("0", .jstr "Office")]
    5 6 (some 0) 60 300 (some (.jnum 60)) [] (.jnum 1) 1 3

def p0 : Params :=
  { floor_capacities := [("Residential", 10), ("Office", 20)]
    floor_types := [("0", "Office")]
    rows_generated := 5
    floor_number := 6
    negative_floor_number := 0
    min_time_interval_seconds := 60
    max_time_interval_seconds := 300
    interval_per_floor_seconds := 60
    peak_hours := []
    peak_multiplier := 1
    random_minutes_min := 1
    random_minutes_max := 3 }

def c0 : Cursor := { current_floor := 0, demand_floor := 3, start_time := 0 }

def inp0 : List StepInput :=
  [{ next_draws := [2], random_minutes := 1, demand_draw := 4 },
   { next_draws := [0], random_minutes := 2, demand_draw := 1 }]

def out0 : List ElevatorState :=
  [{ current_floor := 0, demand_floor := 3, next_floor := 2,
     call_time := 5, date_str_sec := 300 },
   { current_floor := 2, demand_floor := 4, next_floor := 0,
     call_time := 13, date_str_sec := 780 }]

/-- Validates fine and has distinct capacities (so the weight
derivation succeeds and the loop is reached), but
`interval_per_floor_seconds = 0` and a random-minutes range pinned to 0
make every generated interval zero. -/
def cfg1 : List (String × JVal) :=
  mkData [("Residential", .jnum 10), ("Office", .jnum 20)] [("0", .jstr "Office")]
    5 6 (some 0) 5 300 (some (.jnum 0)) [] (.jnum 1) 0 0

def p1 : Params :=
  { floor_capacities := [("Residential", 10), ("Office", 20)]
    floor_types := [("0", "Office")]
    rows_generated := 5
    floor_number := 6
    negative_floor_number := 0
    min_time_interval_seconds := 5
    max_time_interval_seconds := 300
    interval_per_floor_seconds := 0
    peak_hours := []
    peak_multiplier := 1
    random_minutes_min := 0
    random_minutes_max := 0 }

def c1 : Cursor := { current_floor := 0, demand_floor := 3, start_time := 0 }

def inp1 : List StepInput :=
  [{ next_draws := [0], random_minutes := 0, demand_draw := 3 },
   { next_draws := [0], random_minutes := 0, demand_draw := 0 }]

def out1 : List ElevatorState :=
  [{ current_floor := 0, demand_floor := 3, next_floor := 0,
     call_time := 0, date_str_sec := 0 },
   { current_floor := 0, demand_floor := 3, next_floor := 0,
     call_time := 0, date_str_sec := 0 }]

/-- Validates fine, with `min_time_interval_seconds = 50` larger than
`2 * interval_per_floor_seconds = 20`. -/
def cfg2 : List (String × JVal) :=
  mkData [("Residential", .jnum 10)] []
    5 6 (some 0) 50 300 (some (.jnum 10)) [] (.jnum 1) 1 3

def p2 : Params :=
  { floor_capacities := [("Residential", 10)]
    floor_types := []
    rows_generated := 5
    floor_number := 6
    negative_floor_number := 0
    min_time_interval_seconds := 50
    max_time_interval_seconds := 300
    interval_per_floor_seconds := 10
    peak_hours := []
    peak_multiplier := 1
    random_minutes_min := 1
    random_minutes_max := 3 }

/-- Validates fine, but every floor resolves to the same capacity. -/
def cfg3 : List (String × JVal) :=
  mkData [("Residential", .jnum 10)] []
    5 3 (some 0) 5 300 (some (.jnum 10)) [] (.jnum 1) 1 3

def p3 : Params :=
  { floor_capacities := [("Residential", 10)]
    floor_types := []
    rows_generated := 5
    floor_number := 3
    negative_floor_number := 0
    min_time_interval_seconds := 5
    max_time_interval_seconds := 300
    interval_per_floor_seconds := 10
    peak_hours := []
    peak_multiplier := 1
    random_minutes_min := 1
    random_minutes_max := 3 }

/-- Every key of `requiredKeys` present and valid, but
`negative_floor_number` missing. -/
def cfg4 : List (String × JVal) :=
  mkData [("Residential", .jnum 10)] []
    5 6 none 5 300 (some (.jnum 10)) [] (.jnum 1) 1 3

/-- Validates fine, but the floor range contains a single floor. -/
def cfg6 : List (String × JVal) :=
  mkData [("Residential", .jnum 10)] []
    5 1 (some 0) 5 300 (some (.jnum 10)) [] (.jnum 1) 1 3

def p6 : Params :=
  { floor_capacities := [("Residential", 10)]
    floor_types := []
    rows_generated := 5
    floor_number := 1
    negative_floor_number := 0
    min_time_interval_seconds := 5
    max_time_interval_seconds := 300
    interval_per_floor_seconds := 10
    peak_hours := []
    peak_multiplier := 1
    random_minutes_min := 1
    random_minutes_max := 3 }

/-- Two floors with distinct capacities, for exercising the weight
derivation on a well-posed input. -/
def cfg8 : List (String × JVal) :=
  mkData [("Office", .jnum 20), ("Residential", .jnum 10)] [("0", .jstr "Office")]
    5 2 (some 0) 5 300 (some (.jnum 10)) [] (.jnum 1) 1 3

def p8 : Params :=
  { floor_capacities := [("Office", 20), ("Residential", 10)]
    floor_types := [("0", "Office")]
    rows_generated := 5
    floor_number := 2
    negative_floor_number := 0
    min_time_interval_seconds := 5
    max_time_interval_seconds := 300
    interval_per_floor_seconds := 10
    peak_hours := []
    peak_multiplier := 1
    random_minutes_min := 1
    random_minutes_max := 3 }

def ws8 : List ℚ := [(3:ℚ)/4, 1/4]

/-- Validates fine and has distinct capacities (so the weight
derivation succeeds and the loop is reached), with a tiny fractional
per-floor interval (0.001 seconds per floor) and the random-minutes
draw pinned to 0, so consecutive call datetimes advance by well under
one second. -/
def cfg9 : List (String × JVal) :=
  mkData [("Residential", .jnum 10), ("Office", .jnum 20)] [("0", .jstr "Office")]
    5 6 (some 0) 5 300 (some (.jfloat (Rat.mk' 1 1000))) [] (.jnum 1) 0 0

def p9 : Params :=
  { floor_capacities := [("Residential", 10), ("Office", 20)]
    floor_types := [("0", "Office")]
    rows_generated := 5
    floor_number := 6
    negative_floor_number := 0
    min_time_interval_seconds := 5
    max_time_interval_seconds := 300
    interval_per_floor_seconds := Rat.mk' 1 1000
    peak_hours := []
    peak_multiplier := 1
    random_minutes_min := 0
    random_minutes_max := 0 }

def c9 : Cursor := { current_floor := 0, demand_floor := 2, start_time := 0 }

def inp9 : List StepInput :=
  [{ next_draws := [0], random_minutes := 0, demand_draw := 2 },
   { next_draws := [0], random_minutes := 0, demand_draw := 2 }]

def out9 : List ElevatorState :=
  [{ current_floor := 0, demand_floor := 2, next_floor := 0,
     call_time := Rat.mk' 1 15000, date_str_sec := 0 },
   { current_floor := 0, demand_floor := 2, next_floor := 0,
     call_time := Rat.mk' 1 7500, date_str_sec := 0 }]

/-- Validates fine although floor 0 resolves to floor type "Office",
which is not a key of `floor_capacities`. -/
def cfg10 : List (String × JVal) :=
  mkData [("Residential", .jnum 10)] [("0", .jstr "Office")]
    5 2 (some 0) 5 300 (some (.jnum 10)) [] (.jnum 1) 1 3

def p10 : Params :=
  { floor_capacities := [("Residential", 10)]
    floor_types := [("0", "Office")]
    rows_generated := 5
    floor_number := 2
    negative_floor_number := 0
    min_time_interval_seconds := 5
    max_time_interval_seconds := 300
    interval_per_floor_seconds := 10
    peak_hours := []
    peak_multiplier := 1
    random_minutes_min := 1
    random_minutes_max := 3 }

/-! Helper lemmas. -/

theorem exceptBind_ok {ε α β : Type} {x : Except ε α} {f : α → Except ε β} {b : β}
    (h : x >>= f = .ok b) : ∃ a, x = .ok a ∧ f a = .ok b := by
  cases x with
  | error e => exact absurd h (by simp [Bind.bind, Except.bind])
  | ok a => exact ⟨a, rfl, by simpa [Bind.bind, Except.bind] using h⟩

theorem getKey_ok {data : List (String × JVal)} {k : String} {v : JVal}
    (h : getKey data k = .ok v) : jlookup data k = some v := by
  unfold getKey at h
  cases hj : jlookup data k with
  | none => rw [hj] at h; exact Except.noConfusion h
  | some w => rw [hj] at h; cases h; rfl

theorem getV_of_getKey {data : List (String × JVal)} {k : String} {v : JVal}
    (h : getKey data k = .ok v) : getV data k = v := by
  unfold getV
  rw [getKey_ok h]
  rfl

theorem seqOpts_eq_none_of_mem {l : List (Option Int)} (h : none ∈ l) :
    seqOpts l = none := by
  induction l with
  | nil => cases h
  | cons a t ih =>
    cases a with
    | none => rfl
    | some x =>
      have ht : (none : Option Int) ∈ t := by
        cases h with
        | tail _ h2 => exact h2
      simp [seqOpts, ih ht]

/-! Claim theorems. -/

/-- Claim C7: the interval calculator returns exactly
scaledRandomMinutes + lag(currentDistance) + lag(nextDistance), with
the lag and peak-scaling formulas exactly as the specification states
them. -/
theorem spec_c7_interval_formula (p : Params)
    (current_floor demand_floor next_floor hour r : Int) :
    calculate_interval_minutes p current_floor demand_floor next_floor hour r =
      interval_spec p current_floor demand_floor next_floor hour r := by
  unfold calculate_interval_minutes interval_spec scaled_random_minutes_spec lag_spec
    interval_lag is_peak_hour
  cases h : p.peak_hours.any (fun iv => decide (iv.start ≤ hour) && decide (hour < iv.stop)) <;>
    simp [h]

/-- Claim C5: whenever pick_next_door returns a floor, that floor
differs from the demand floor. -/
theorem spec_c5_excludes_demand (demand_floor : Int) (draws : List Int) (f : Int)
    (h : pick_next_door demand_floor draws = some f) : f ≠ demand_floor := by
  induction draws with
  | nil => exact absurd h (by simp [pick_next_door])
  | cons x xs ih =>
    unfold pick_next_door at h
    split_ifs at h with hx
    · cases h; exact hx
    · exact ih h

theorem spec_c5_witness :
    pick_next_door 1 [1, 2] = some 2 ∧ (2 : Int) ≠ 1 :=
  ⟨by decide, spec_c5_excludes_demand 1 [1, 2] 2 (by decide)⟩

/-- Claim C6: with the single-floor range of `p6` (floor range `[0, 1)`)
and the demand floor 0, every draw the sampler can produce equals the
demand floor, so `pick_next_door` is still running after any finite
number of draws: the retry loop never terminates.  (The code has no
single-floor short-circuit, contradicting the required behavior.) -/
theorem spec_c6_single_floor_loops (draws : List Int)
    (h : ∀ x ∈ draws, x ∈ floorRange p6) :
    pick_next_door 0 draws = none := by
  induction draws with
  | nil => rfl
  | cons x xs ih =>
    have hx : x ∈ floorRange p6 := h x (by simp)
    have hx0 : x = 0 := by
      have hr : floorRange p6 = [0] := by decide
      rw [hr] at hx
      simpa using hx
    subst hx0
    have hstep : pick_next_door 0 (0 :: xs) = pick_next_door 0 xs := by
      simp [pick_next_door]
    rw [hstep]
    exact ih (fun y hy => h y (by simp [hy]))

theorem spec_c6_witness :
    (∀ x ∈ ([0, 0, 0] : List Int), x ∈ floorRange p6) ∧
      pick_next_door 0 [0, 0, 0] = none :=
  ⟨by decide, spec_c6_single_floor_loops [0, 0, 0] (by decide)⟩

/-- Claim C3: on a configuration that the loader accepts and in which
every floor resolves to the same capacity, the weight derivation raises
ZeroDivisionError instead of applying any fallback. -/
theorem spec_c3_code_behavior :
    load_elevator_variables cfg3 = .ok p3 ∧
    floor_weights_mapping p3 = .error .zeroDivisionError := by
  exact ⟨by decide, by decide⟩

/-- Claim C10: whenever some floor of the range resolves to a
floor-type label that is not a key of floor_capacities, the weight
derivation fails with a TypeError; and the loader accepts such a
configuration (`cfg10`) without complaint, so the failure surfaces only
at derivation time. -/
theorem spec_c10_dangling_type (p : Params)
    (h : ∃ f ∈ floorRange p, capacity_of p f = none) :
    floor_weights_mapping p = .error .typeError ∧
    load_elevator_variables cfg10 = .ok p10 := by
  constructor
  · unfold floor_weights_mapping
    obtain ⟨f, hf, hc⟩ := h
    have hm : (none : Option Int) ∈ (floorRange p).map (capacity_of p) := by
      rw [← hc]
      exact List.mem_map_of_mem _ hf
    rw [seqOpts_eq_none_of_mem hm]
  · decide

theorem spec_c10_witness :
    (∃ f ∈ floorRange p10, capacity_of p10 f = none) ∧
    (floor_weights_mapping p10 = .error .typeError ∧
      load_elevator_variables cfg10 = .ok p10) :=
  ⟨⟨0, by decide, by decide⟩, spec_c10_dangling_type p10 ⟨0, by decide, by decide⟩⟩

/-- Claim C2, counterexample: on the validated configuration `cfg2`
(minimum interval 50 s, 10 s per floor), growing the distance from 1 to
2 strictly decreases the lag, so the lag term is not monotonically
non-decreasing in the distance. -/
theorem spec_c2_counterexample :
    load_elevator_variables cfg2 = .ok p2 ∧
    interval_lag p2 2 < interval_lag p2 1 := by
  refine ⟨by decide, ?_⟩
  norm_num [interval_lag, p2, min_def]

/-- Claim C2, amended: restricted to distances at least 2 (where the
`distance * intervalPerFloorSeconds` branch applies), the lag term is
monotonically non-decreasing in the distance, and it plateaus at
maxIntervalSeconds / 60 once the per-floor product reaches the cap.
Between distance 1 and distance 2 the lag can decrease, as the
counterexample shows. -/
theorem spec_c2_amended (p : Params) (d1 d2 : Int)
    (hipf : 0 ≤ p.interval_per_floor_seconds) (h1 : 2 ≤ d1) (h12 : d1 ≤ d2) :
    interval_lag p d1 ≤ interval_lag p d2 ∧
    ((p.max_time_interval_seconds : ℚ) ≤ (d1 : ℚ) * p.interval_per_floor_seconds →
      interval_lag p d1 = (p.max_time_interval_seconds : ℚ) / 60) := by
  have hd1 : ¬ (d1 ≤ 1) := by omega
  have hd2 : ¬ (d2 ≤ 1) := by omega
  constructor
  · unfold interval_lag
    rw [if_neg hd1, if_neg hd2]
    have hmul : (d1 : ℚ) * p.interval_per_floor_seconds ≤
        (d2 : ℚ) * p.interval_per_floor_seconds := by
      apply mul_le_mul_of_nonneg_right _ hipf
      exact_mod_cast h12
    exact div_le_div_of_nonneg_right (min_le_min le_rfl hmul) (by norm_num)
  · intro hcap
    unfold interval_lag
    rw [if_neg hd1, min_eq_left hcap]

theorem interval_lag_pos (p : Params) (hmin : 0 < p.min_time_interval_seconds)
    (hmax : 0 < p.max_time_interval_seconds) (hipf : 0 < p.interval_per_floor_seconds)
    (d : Int) : 0 < interval_lag p d := by
  unfold interval_lag
  split_ifs with h
  · apply div_pos _ (by norm_num)
    exact_mod_cast hmin
  · apply div_pos _ (by norm_num)
    apply lt_min
    · exact_mod_cast hmax
    · apply mul_pos _ hipf
      have hd : (0 : ℤ) < d := by omega
      exact_mod_cast hd

theorem calculate_interval_minutes_pos (p : Params)
    (hmin : 0 < p.min_time_interval_seconds) (hmax : 0 < p.max_time_interval_seconds)
    (hipf : 0 < p.interval_per_floor_seconds) (hpm : 0 ≤ p.peak_multiplier)
    (current_floor demand_floor next_floor hour r : Int) (hr : 0 ≤ r) :
    0 < calculate_interval_minutes p current_floor demand_floor next_floor hour r := by
  have h1 := interval_lag_pos p hmin hmax hipf |current_floor - demand_floor|
  have h2 := interval_lag_pos p hmin hmax hipf |next_floor - demand_floor|
  have h3 : (0 : ℚ) ≤ (r : ℚ) * (if is_peak_hour p hour then p.peak_multiplier else 1) := by
    apply mul_nonneg
    · exact_mod_cast hr
    · split_ifs
      · exact hpm
      · norm_num
  show 0 < (r : ℚ) * (if is_peak_hour p hour then p.peak_multiplier else 1)
      + interval_lag p |current_floor - demand_floor|
      + interval_lag p |next_floor - demand_floor|
  linarith

theorem gen_run_chain_floor (p : Params) :
    ∀ (inp : List StepInput) (c : Cursor) (out : List ElevatorState),
      gen_run p c inp = some out → chain_floor_from c.current_floor out = true := by
  intro inp
  induction inp with
  | nil =>
    intro c out h
    simp only [gen_run] at h
    cases h
    rfl
  | cons i rest ih =>
    intro c out h
    unfold gen_run at h
    split at h
    · exact absurd h (by simp)
    · rename_i s c2 hstep
      cases hrun : gen_run p c2 rest with
      | none => rw [hrun] at h; exact absurd h (by simp)
      | some out2 =>
        rw [hrun] at h
        simp only [Option.map_some'] at h
        cases h
        unfold gen_step at hstep
        split at hstep
        · exact absurd hstep (by simp)
        · rename_i nf hpick
          simp only [Option.some_inj, Prod.mk.injEq] at hstep
          obtain ⟨hs, hc2⟩ := hstep
          have ihh := ih c2 out2 hrun
          rw [← hc2] at ihh
          rw [← hs]
          simp only [chain_floor_from, beq_self_eq_true, Bool.true_and]
          exact ihh

theorem gen_run_chain_time (p : Params)
    (hmin : 0 < p.min_time_interval_seconds) (hmax : 0 < p.max_time_interval_seconds)
    (hipf : 0 < p.interval_per_floor_seconds) (hpm : 0 ≤ p.peak_multiplier) :
    ∀ (inp : List StepInput) (c : Cursor) (out : List ElevatorState),
      gen_run p c inp = some out → (∀ s ∈ inp, 0 ≤ s.random_minutes) →
      chain_time_from c.start_time out = true := by
  intro inp
  induction inp with
  | nil =>
    intro c out h _
    simp only [gen_run] at h
    cases h
    rfl
  | cons i rest ih =>
    intro c out h hr
    unfold gen_run at h
    split at h
    · exact absurd h (by simp)
    · rename_i s c2 hstep
      cases hrun : gen_run p c2 rest with
      | none => rw [hrun] at h; exact absurd h (by simp)
      | some out2 =>
        rw [hrun] at h
        simp only [Option.map_some'] at h
        cases h
        unfold gen_step at hstep
        split at hstep
        · exact absurd hstep (by simp)
        · rename_i nf hpick
          simp only [Option.some_inj, Prod.mk.injEq] at hstep
          obtain ⟨hs, hc2⟩ := hstep
          have ihh := ih c2 out2 hrun (fun x hx => hr x (by simp [hx]))
          rw [← hc2] at ihh
          have hpos := calculate_interval_minutes_pos p hmin hmax hipf hpm
            c.current_floor c.demand_floor nf (hourOf c.start_time) i.random_minutes
            (hr i (by simp))
          rw [← hs]
          simp only [chain_time_from, Bool.and_eq_true, decide_eq_true_eq]
          constructor
          · linarith
          · exact ihh

theorem chain_floor_from_okb :
    ∀ (l : List ElevatorState) (cf : Int),
      chain_floor_from cf l = true → chain_floor_okb l = true := by
  intro l
  induction l with
  | nil => intro cf _; rfl
  | cons s rest ih =>
    intro cf h
    simp only [chain_floor_from, Bool.and_eq_true] at h
    cases rest with
    | nil => rfl
    | cons s2 r2 =>
      have h2 := h.2
      simp only [chain_floor_from, Bool.and_eq_true] at h2
      simp only [chain_floor_okb, Bool.and_eq_true]
      exact ⟨h2.1, ih s.next_floor h.2⟩

theorem chain_time_from_okb :
    ∀ (l : List ElevatorState) (t : ℚ),
      chain_time_from t l = true → chain_time_okb l = true := by
  intro l
  induction l with
  | nil => intro t _; rfl
  | cons s rest ih =>
    intro t h
    simp only [chain_time_from, Bool.and_eq_true] at h
    cases rest with
    | nil => rfl
    | cons s2 r2 =>
      have h2 := h.2
      simp only [chain_time_from, Bool.and_eq_true] at h2
      simp only [chain_time_okb, Bool.and_eq_true]
      exact ⟨h2.1, ih s.call_time h.2⟩

/-- Claim C1, amended: for every sequence of states produced by one
generation run, consecutive states always chain on floors
(s(i+1).currentFloor = s(i).nextFloor); the call datetimes are
additionally strictly increasing whenever the validated parameters
also satisfy intervalPerFloorSeconds > 0 and peakMultiplier ≥ 0 and
every random-minutes draw of the run is nonnegative.  (The validator
accepts intervalPerFloorSeconds = 0 and a random-minutes range pinned
to 0, under which consecutive call datetimes coincide, as the
counterexample shows.) -/
theorem spec_c1_amended (p : Params) (c : Cursor) (inp : List StepInput)
    (out : List ElevatorState) (h : gen_run p c inp = some out) :
    chain_floor_okb out = true ∧
    (0 < p.min_time_interval_seconds → 0 < p.max_time_interval_seconds →
     0 < p.interval_per_floor_seconds → 0 ≤ p.peak_multiplier →
     (∀ s ∈ inp, 0 ≤ s.random_minutes) → chain_time_okb out = true) := by
  constructor
  · exact chain_floor_from_okb out c.current_floor (gen_run_chain_floor p inp c out h)
  · intro hmin hmax hipf hpm hr
    exact chain_time_from_okb out c.start_time
      (gen_run_chain_time p hmin hmax hipf hpm inp c out h hr)

theorem spec_c1_witness :
    gen_run p0 c0 inp0 = some out0 ∧
    (chain_floor_okb out0 = true ∧ chain_time_okb out0 = true) := by
  have h : gen_run p0 c0 inp0 = some out0 := by
    norm_num [gen_run, gen_step, pick_next_door, calculate_interval_minutes,
      interval_lag, is_peak_hour, hourOf, p0, c0, inp0, out0, min_def]
  refine ⟨h, (spec_c1_amended p0 c0 inp0 out0 h).1, ?_⟩
  exact (spec_c1_amended p0 c0 inp0 out0 h).2 (by decide) (by decide) (by decide)
    (by decide) (by decide)

/-- Claim C1, counterexample: `cfg1` passes validation, its distinct
capacities let the weight derivation of the run prologue succeed, every
draw is a legal output of the corresponding random call, yet the full
method produces two consecutive states with identical callDatetime,
violating the strictly-later half of the chain invariant. -/
theorem spec_c1_counterexample :
    load_elevator_variables cfg1 = .ok p1 ∧
    (inp1.all (fun s =>
      decide (p1.random_minutes_min ≤ s.random_minutes) &&
      decide (s.random_minutes ≤ p1.random_minutes_max) &&
      s.next_draws.all (fun x => decide (x ∈ floorRange p1)) &&
      decide (s.demand_draw ∈ floorRange p1))) = true ∧
    generate_elevator_states p1 c1 inp1 = .ok (some out1) ∧
    chain_floor_okb out1 = true ∧
    chain_time_okb out1 = false := by
  refine ⟨by decide, by decide, ?_, by decide, by decide⟩
  have hcaps : seqOpts ((floorRange p1).map (capacity_of p1))
      = some [20, 10, 10, 10, 10, 10] := by decide
  have hw : floor_weights_mapping p1
      = .ok [(583:ℚ)/1000, 83/1000, 83/1000, 83/1000, 83/1000, 83/1000] := by
    unfold floor_weights_mapping
    rw [hcaps]
    norm_num [raw_weights, round3, round_eq, p1, min_def, max_def]
  have hrun : gen_run p1 c1 inp1 = some out1 := by
    norm_num [gen_run, gen_step, pick_next_door, calculate_interval_minutes,
      interval_lag, is_peak_hour, hourOf, p1, c1, inp1, out1, min_def]
  unfold generate_elevator_states
  rw [hw, hrun]

/-- Claim C9: the stored timestamp is the call datetime truncated to
whole seconds by the strftime format, while the in-memory cursor keeps
fractional precision, so a run of the full method (on validated `cfg9`,
whose distinct capacities let the weight-derivation prologue succeed)
can persist two consecutive records with the same timestamp string even
though the internal call datetimes strictly increase. -/
theorem spec_c9_truncated_timestamps :
    load_elevator_variables cfg9 = .ok p9 ∧
    generate_elevator_states p9 c9 inp9 = .ok (some out9) ∧
    (out9.head?.map (fun s => s.call_time) ≠ (out9.get? 1).map (fun s => s.call_time) ∧
      chain_time_okb out9 = true) ∧
    out9.head?.map (fun s => s.date_str_sec) = (out9.get? 1).map (fun s => s.date_str_sec) := by
  refine ⟨by decide, ?_, ⟨by decide, by decide⟩, by decide⟩
  have hcaps : seqOpts ((floorRange p9).map (capacity_of p9))
      = some [20, 10, 10, 10, 10, 10] := by decide
  have hw : floor_weights_mapping p9
      = .ok [(583:ℚ)/1000, 83/1000, 83/1000, 83/1000, 83/1000, 83/1000] := by
    unfold floor_weights_mapping
    rw [hcaps]
    norm_num [raw_weights, round3, round_eq, p9, min_def, max_def]
  have hrun : gen_run p9 c9 inp9 = some out9 := by
    norm_num [gen_run, gen_step, pick_next_door, calculate_interval_minutes,
      interval_lag, is_peak_hour, hourOf, p9, c9, inp9, out9, min_def,
      Rat.mk'_eq_divInt, Rat.divInt_eq_div]
  unfold generate_elevator_states
  rw [hw, hrun]

theorem check_int_pos_ok {data : List (String × JVal)} {k : String} {msg : String}
    (h : check_int_pos data k msg = .ok ()) :
    (getV data k).isInt = true ∧ 0 < (getV data k).asInt := by
  unfold check_int_pos at h
  obtain ⟨v, hv, hif⟩ := exceptBind_ok h
  rw [getV_of_getKey hv]
  split_ifs at hif with hcond
  exact hcond

theorem check_negative_floor_number_ok {data : List (String × JVal)}
    (h : check_negative_floor_number data = .ok ()) :
    (getV data "negative_floor_number").isInt = true ∧
    (getV data "negative_floor_number").asInt ≤ 0 := by
  unfold check_negative_floor_number at h
  obtain ⟨v, hv, hif⟩ := exceptBind_ok h
  rw [getV_of_getKey hv]
  split_ifs at hif with hcond
  exact hcond

theorem check_interval_per_floor_ok {data : List (String × JVal)}
    (h : check_interval_per_floor data = .ok ()) :
    (getV data "interval_per_floor_seconds").isNum = true ∧
    0 ≤ (getV data "interval_per_floor_seconds").asQ := by
  unfold check_interval_per_floor at h
  obtain ⟨v, hv, hif⟩ := exceptBind_ok h
  rw [getV_of_getKey hv]
  split_ifs at hif with hcond
  exact hcond

theorem check_peak_multiplier_ok {data : List (String × JVal)}
    (h : check_peak_multiplier data = .ok ()) :
    0 ≤ (getV data "peak_multiplier").asQ ∧ (getV data "peak_multiplier").asQ ≤ 1 := by
  unfold check_peak_multiplier at h
  obtain ⟨v, hv, hif⟩ := exceptBind_ok h
  rw [getV_of_getKey hv]
  split_ifs at hif with hcond
  exact ⟨hcond.2.1, hcond.2.2⟩

theorem check_floor_capacities_ok {data : List (String × JVal)}
    (h : check_floor_capacities data = .ok ()) :
    (getV data "floor_capacities").asDict.all
      (fun kv => kv.2.isInt && decide (0 < kv.2.asInt)) = true := by
  unfold check_floor_capacities at h
  obtain ⟨v, hv, hif⟩ := exceptBind_ok h
  rw [getV_of_getKey hv]
  split_ifs at hif with hd hall
  exact hall

/-- Claim C4, amended: validation is eager and sound, in that every
configuration the loader accepts satisfies all the declared range
constraints (so any violating configuration fails before sampling).
However, a configuration missing the negative_floor_number or
interval_per_floor_seconds key fails with an uncaught KeyError from the
raw dictionary access, not with the ValueError configuration error that
all other violations raise, because those two keys are absent from the
required-key structure check. -/
theorem spec_c4_amended (data : List (String × JVal)) (p : Params)
    (h : load_elevator_variables data = .ok p) :
    0 < p.rows_generated ∧ 0 < p.floor_number ∧ p.negative_floor_number ≤ 0 ∧
    0 < p.min_time_interval_seconds ∧ 0 < p.max_time_interval_seconds ∧
    0 ≤ p.interval_per_floor_seconds ∧
    0 ≤ p.peak_multiplier ∧ p.peak_multiplier ≤ 1 ∧
    (∀ kv ∈ p.floor_capacities, 0 < kv.2) := by
  unfold load_elevator_variables at h
  obtain ⟨u, hcheck, hp⟩ := exceptBind_ok h
  have hpe : p = extract_params data := by
    have := hp.symm
    simpa [pure, Except.pure] using this
  subst hpe
  unfold load_check at hcheck
  obtain ⟨_, hstru, hcheck⟩ := exceptBind_ok hcheck
  obtain ⟨_, hfc, hcheck⟩ := exceptBind_ok hcheck
  obtain ⟨_, hft, hcheck⟩ := exceptBind_ok hcheck
  obtain ⟨_, hrows, hcheck⟩ := exceptBind_ok hcheck
  obtain ⟨_, hfn, hcheck⟩ := exceptBind_ok hcheck
  obtain ⟨_, hnfn, hcheck⟩ := exceptBind_ok hcheck
  obtain ⟨_, hmn, hcheck⟩ := exceptBind_ok hcheck
  obtain ⟨_, hmx, hcheck⟩ := exceptBind_ok hcheck
  obtain ⟨_, hipf, hcheck⟩ := exceptBind_ok hcheck
  obtain ⟨_, hph, hcheck⟩ := exceptBind_ok hcheck
  obtain ⟨_, hpm, hrmr⟩ := exceptBind_ok hcheck
  refine ⟨?_, ?_, ?_, ?_, ?_, ?_, ?_, ?_, ?_⟩
  · exact (check_int_pos_ok hrows).2
  · exact (check_int_pos_ok hfn).2
  · exact (check_negative_floor_number_ok hnfn).2
  · exact (check_int_pos_ok hmn).2
  · exact (check_int_pos_ok hmx).2
  · exact (check_interval_per_floor_ok hipf).2
  · exact (check_peak_multiplier_ok hpm).1
  · exact (check_peak_multiplier_ok hpm).2
  · intro kv hkv
    have hall := check_floor_capacities_ok hfc
    simp only [extract_params, List.mem_map] at hkv
    obtain ⟨orig, horig, hkveq⟩ := hkv
    subst hkveq
    have := (List.all_eq_true.mp hall) orig horig
    simp only [Bool.and_eq_true, decide_eq_true_eq] at this
    exact this.2

theorem spec_c4_witness :
    0 < p0.rows_generated ∧ 0 < p0.floor_number ∧ p0.negative_floor_number ≤ 0 ∧
    0 < p0.min_time_interval_seconds ∧ 0 < p0.max_time_interval_seconds ∧
    0 ≤ p0.interval_per_floor_seconds ∧
    0 ≤ p0.peak_multiplier ∧ p0.peak_multiplier ≤ 1 ∧
    (∀ kv ∈ p0.floor_capacities, 0 < kv.2) :=
  spec_c4_amended cfg0 p0 (by decide)

/-- Claim C4, counterexample: `cfg4` carries every key of the
structure-checked list with valid values but omits
negative_floor_number; loading fails with a KeyError from the raw
subscript access rather than with the ValueError configuration
error. -/
theorem spec_c4_counterexample :
    load_elevator_variables cfg4 = .error (.keyError "negative_floor_number") := by
  decide

theorem abs_round3_sub_le (q : ℚ) : |round3 q - q| ≤ 1 / 2000 := by
  unfold round3
  have h := abs_sub_round (1000 * q)
  calc |(round (1000 * q) : ℚ) / 1000 - q|
      = |((round (1000 * q) : ℚ) - 1000 * q) / 1000| := by
        rw [show (round (1000 * q) : ℚ) / 1000 - q
            = ((round (1000 * q) : ℚ) - 1000 * q) / 1000 from by ring]
    _ = |(round (1000 * q) : ℚ) - 1000 * q| / 1000 := by
        rw [abs_div]
        norm_num
    _ = |1000 * q - (round (1000 * q) : ℚ)| / 1000 := by rw [abs_sub_comm]
    _ ≤ (1 / 2) / 1000 := div_le_div_of_nonneg_right h (by norm_num)
    _ = 1 / 2000 := by norm_num

theorem sum_map_round3_close (l : List ℚ) :
    |(l.map round3).sum - l.sum| ≤ (l.length : ℚ) * (1 / 2000) := by
  induction l with
  | nil => simp
  | cons x xs ih =>
    simp only [List.map_cons, List.sum_cons, List.length_cons]
    push_cast
    have h1 := abs_round3_sub_le x
    rw [show round3 x + (xs.map round3).sum - (x + xs.sum)
        = (round3 x - x) + ((xs.map round3).sum - xs.sum) from by ring]
    calc |(round3 x - x) + ((xs.map round3).sum - xs.sum)|
        ≤ |round3 x - x| + |(xs.map round3).sum - xs.sum| := abs_add _ _
      _ ≤ 1 / 2000 + (xs.length : ℚ) * (1 / 2000) := add_le_add h1 ih
      _ = ((xs.length : ℚ) + 1) * (1 / 2000) := by ring

theorem sum_map_div (l : List ℚ) (t : ℚ) :
    (l.map (fun w => w / t)).sum = l.sum / t := by
  induction l with
  | nil => simp
  | cons x xs ih => simp [ih, add_div]

theorem foldl_min_le_mem :
    ∀ (l : List Int) (a x : Int), x ∈ a :: l → List.foldl min a l ≤ x := by
  intro l
  induction l with
  | nil =>
    intro a x hx
    simp only [List.mem_singleton] at hx
    subst hx
    exact le_refl _
  | cons b t ih =>
    intro a x hx
    simp only [List.foldl_cons]
    have hm : List.foldl min (min a b) t ≤ min a b := ih (min a b) (min a b) (by simp)
    rcases List.mem_cons.mp hx with rfl | hx2
    · exact le_trans hm (min_le_left _ _)
    · rcases List.mem_cons.mp hx2 with rfl | hx3
      · exact le_trans hm (min_le_right _ _)
      · exact ih (min a b) x (List.mem_cons_of_mem _ hx3)

theorem mem_le_foldl_max :
    ∀ (l : List Int) (a x : Int), x ∈ a :: l → x ≤ List.foldl max a l := by
  intro l
  induction l with
  | nil =>
    intro a x hx
    simp only [List.mem_singleton] at hx
    subst hx
    exact le_refl _
  | cons b t ih =>
    intro a x hx
    simp only [List.foldl_cons]
    have hm : max a b ≤ List.foldl max (max a b) t := ih (max a b) (max a b) (by simp)
    rcases List.mem_cons.mp hx with rfl | hx2
    · exact le_trans (le_max_left _ _) hm
    · rcases List.mem_cons.mp hx2 with rfl | hx3
      · exact le_trans (le_max_right _ _) hm
      · exact ih (max a b) x (List.mem_cons_of_mem _ hx3)

theorem normalized_round3_sum_bound (l : List ℚ) (hl : l ≠ [])
    (hpos : ∀ x ∈ l, 0 < x) :
    |((l.map (fun w => round3 (w / l.sum))).sum - 1)| ≤
      ((l.map (fun w => round3 (w / l.sum))).length : ℚ) * (1 / 2000) := by
  have htot : 0 < l.sum := List.sum_pos l hpos hl
  have hmap : l.map (fun w => round3 (w / l.sum))
      = (l.map (fun w => w / l.sum)).map round3 := by
    rw [List.map_map]
    rfl
  have hsum : (l.map (fun w => w / l.sum)).sum = 1 := by
    rw [sum_map_div]
    exact div_self (ne_of_gt htot)
  rw [hmap]
  nth_rewrite 1 [← hsum]
  have hb := sum_map_round3_close (l.map (fun w => w / l.sum))
  simpa [List.length_map] using hb

/-- Claim C8: whenever the weight derivation succeeds (in particular
whenever the capacities are not all equal) on parameters with a
positive floor_number, the rounded normalized weights sum to 1 within
0.0005 per floor. -/
theorem spec_c8_weights_sum (p : Params) (ws : List ℚ) (hfn : 0 < p.floor_number)
    (h : floor_weights_mapping p = .ok ws) :
    |ws.sum - 1| ≤ (ws.length : ℚ) * (1 / 2000) := by
  unfold floor_weights_mapping at h
  split at h
  · exact absurd h (by simp)
  · exact absurd h (by simp)
  · rename_i c0 rest heq
    have h2 : (if List.foldl max c0 rest = List.foldl min c0 rest then
          (Except.error DerivErr.zeroDivisionError : Except DerivErr (List ℚ))
        else
          Except.ok ((raw_weights p (c0 :: rest) (List.foldl min c0 rest)
              (List.foldl max c0 rest)).map
            (fun w => round3 (w / (raw_weights p (c0 :: rest) (List.foldl min c0 rest)
              (List.foldl max c0 rest)).sum)))) = Except.ok ws := h
    split_ifs at h2 with hne
    cases h2
    have hlt : List.foldl min c0 rest < List.foldl max c0 rest := by
      have ha : List.foldl min c0 rest ≤ c0 := foldl_min_le_mem rest c0 c0 (by simp)
      have hb : c0 ≤ List.foldl max c0 rest := mem_le_foldl_max rest c0 c0 (by simp)
      rcases lt_or_eq_of_le (le_trans ha hb) with hlt | heq
      · exact hlt
      · exact absurd heq.symm hne
    have hlne : raw_weights p (c0 :: rest) (List.foldl min c0 rest)
        (List.foldl max c0 rest) ≠ [] := by
      simp [raw_weights]
    have hpos : ∀ x ∈ raw_weights p (c0 :: rest) (List.foldl min c0 rest)
        (List.foldl max c0 rest), 0 < x := by
      intro x hx
      rw [raw_weights] at hx
      obtain ⟨c, hc, hceq⟩ := List.exists_of_mem_map hx
      subst hceq
      have hbase : (0 : ℚ) < 1 / (p.floor_number : ℚ) := by
        apply one_div_pos.mpr
        exact_mod_cast hfn
      have hminle : List.foldl min c0 rest ≤ c := foldl_min_le_mem rest c0 c hc
      have hfrac : (0 : ℚ) ≤ ((c : ℚ) - ((List.foldl min c0 rest : ℤ) : ℚ))
          / (((List.foldl max c0 rest : ℤ) : ℚ) - ((List.foldl min c0 rest : ℤ) : ℚ)) := by
        apply div_nonneg
        · rw [sub_nonneg]
          exact_mod_cast hminle
        · rw [sub_nonneg]
          exact_mod_cast le_of_lt hlt
      linarith
    exact normalized_round3_sum_bound _ hlne hpos

theorem spec_c8_witness :
    0 < p8.floor_number ∧ floor_weights_mapping p8 = .ok ws8 ∧
    |ws8.sum - 1| ≤ ((ws8.length : ℕ) : ℚ) * (1 / 2000) := by
  have hcaps : seqOpts ((floorRange p8).map (capacity_of p8)) = some [20, 10] := by
    decide
  have h : floor_weights_mapping p8 = .ok ws8 := by
    unfold floor_weights_mapping
    rw [hcaps]
    norm_num [raw_weights, round3, round_eq, p8, ws8, min_def, max_def]
  exact ⟨by decide, h, spec_c8_weights_sum p8 ws8 (by decide) h⟩

theorem spec_c2_witness :
    interval_lag p2 2 ≤ interval_lag p2 5 ∧
    ((p2.max_time_interval_seconds : ℚ) ≤ (2 : ℚ) * p2.interval_per_floor_seconds →
      interval_lag p2 2 = (p2.max_time_interval_seconds : ℚ) / 60) :=
  spec_c2_amended p2 2 5 (by decide) (by decide) (by decide)

end ElevatorGen
